import Mathlib

/-!
Verification of the rentall backend's booking pricing and escrow logic
(`src/backend/server.py`), as a shallow embedding in Lean 4.

Conventions of the embedding:
* Money and percentages are exact rationals (`ℚ`); Python's `round(x, 2)`
  is modelled by `round2`, rounding half to even at two decimals.
* Calendar dates are day ordinals (`ℕ`) with day 0 a Monday, so a day `d`
  is a Saturday or Sunday exactly when `d % 7 ≥ 5` (Python's
  `weekday() >= 5`).  The `YYYY-MM-DD` strings of `surge_dates` are
  represented by the day ordinals they denote (the string form of a date
  is injective, so list membership transfers).
* Optional / nullable numeric fields are `Option ℚ`; Python truthiness
  (`x or d`, `if not x`) treats both `None` and `0` as falsy, modelled by
  `pyOrQ`.
* Database state is passed explicitly; handlers are total functions into
  `Except BErr _`, one error constructor per distinct `HTTPException`.
-/

namespace Rentall

/-- Booking lifecycle status strings used by the backend. -/
inductive BStatus where
  | pending | confirmed | rejected | completed | cancelled | paid | disputed
deriving DecidableEq, Repr

/-- Escrow status strings: `pending -> held -> released/refunded`. -/
inductive EStatus where
  | pending | held | released | refunded
deriving DecidableEq, Repr

/-- `duration_type` of a booking request. -/
inductive DurationType where
  | hourly | daily | weekly
deriving DecidableEq, Repr

/-- One error constructor per distinct `HTTPException` raised by the
handlers under verification, identified by its detail message. -/
inductive BErr where
  | listingNotFound       -- "Listing not found"
  | cannotBookOwn         -- "Cannot book your own listing"
  | invalidDates          -- "End date must be after start date"
  | conflict              -- "Dates not available"
  | hourlyUnavailable     -- "Hourly rental not available for this listing"
  | hoursRequired         -- "Hours must be specified for hourly booking"
  | belowMinHours         -- "Minimum {n} hours required"
  | weeklyUnavailable     -- "Weekly rental not available for this listing"
  | dailyUnavailable      -- "Daily rental not available for this listing"
  | belowMinDays          -- "Minimum {n} days required"
  | bookingNotFound       -- "Booking not found"
  | notAuthorized         -- "Not authorized" / "Only the renter can confirm receipt"
  | invalidStatus         -- "Invalid status"
  | notPaid               -- "Booking must be paid first"
  | alreadyConfirmed      -- "Receipt already confirmed"
deriving DecidableEq, Repr

/-- Floor of a rational as an integer (`Int.fdiv` is floor division). -/
def ratFloor (q : ℚ) : ℤ := q.num.fdiv q.den

/-- Round a rational to the nearest integer, ties to even (the rounding
of Python's built-in `round`). -/
def rhalfEven (q : ℚ) : ℤ :=
  let f : ℤ := ratFloor q
  let r : ℚ := q - f
  if r < 1/2 then f
  else if 1/2 < r then f + 1
  else if f % 2 = 0 then f else f + 1

/-- Python's `round(x, 2)` on exact rationals. -/
def round2 (q : ℚ) : ℚ := (rhalfEven (q * 100) : ℚ) / 100

/-- Python truthiness fallback `x or d` for an optional numeric field:
`None` and `0` both fall back to the default. -/
def pyOrQ (x : Option ℚ) (d : ℚ) : ℚ :=
  match x with
  | none => d
  | some v => if v = 0 then d else v

/-- Pricing-relevant listing fields (`ListingBase`, server.py:83-106). -/
structure Listing where
  owner_id : ℕ
  price_per_hour : Option ℚ := none
  price_per_day : Option ℚ := none
  price_per_week : Option ℚ := none
  min_rental_hours : ℕ := 1
  min_rental_days : ℕ := 1
  max_rental_days : ℕ := 30
  surge_enabled : Bool := false
  surge_percentage : Option ℚ := some 20
  surge_weekends : Bool := true
  surge_dates : List ℕ := []
  discount_weekly : ℚ := 0
  discount_monthly : ℚ := 0
  discount_quarterly : ℚ := 0
deriving DecidableEq, Repr

/-- The fields of a stored booking document that the verified handlers
read or write (server.py:778-803). -/
structure Booking where
  listing_id : ℕ
  renter_id : ℕ
  owner_id : ℕ
  start_date : ℕ
  end_date : ℕ
  duration_type : DurationType := .daily
  hours : Option ℕ := none
  surge_days : ℕ := 0
  surge_percentage : ℚ := 0
  discount_applied : ℚ := 0
  total_price : ℚ := 0
  platform_fee : ℚ := 0
  status : BStatus := .pending
  escrow_status : EStatus := .pending
  receipt_confirmed : Bool := false
deriving DecidableEq, Repr

/-- A booking-creation request (`BookingCreate`, server.py:132-140). -/
structure BookingReq where
  listing_id : ℕ
  start_date : ℕ
  end_date : ℕ
  duration_type : DurationType := .daily
  hours : Option ℕ := none
deriving DecidableEq, Repr

/-- `PLATFORM_FEE_PERCENT = 5.0` (server.py:34). -/
def PLATFORM_FEE_PERCENT : ℚ := 5

/-- `is_surge_date` (server.py:688-697): surge disabled short-circuits to
false; weekend check first, then membership in `surge_dates`. -/
def is_surge_date (l : Listing) (d : ℕ) : Bool :=
  if ¬ l.surge_enabled then false
  else if l.surge_weekends ∧ d % 7 ≥ 5 then true
  else l.surge_dates.contains d

/-- The surge-day counting loop (server.py:700-706): iterate the days of
`[s, e)` one at a time and count those satisfying `is_surge_date`. -/
def surgeLoopCount (l : Listing) (s e : ℕ) : ℕ :=
  ((List.range (e - s)).filter (fun i => is_surge_date l (s + i))).length

/-- Python truthiness on an optional numeric field: `None` and `0` both
count as "not configured" (`if not price_per_day: ...`). -/
def truthyQ (x : Option ℚ) : Option ℚ :=
  match x with
  | none => none
  | some v => if v = 0 then none else some v

/-- Statuses that block a new booking in the conflict query
(server.py:671-677): `{"$in": ["pending", "confirmed", "paid"]}`. -/
def activeStatus (s : BStatus) : Bool :=
  s == .pending || s == .confirmed || s == .paid

/-- One clause of the Mongo conflict query (server.py:671-677): same
listing, active status, `start_date <= cand.end AND end_date >= cand.start`. -/
def conflictsWith (b : Booking) (req : BookingReq) : Bool :=
  b.listing_id == req.listing_id && activeStatus b.status &&
    decide (b.start_date ≤ req.end_date) && decide (b.end_date ≥ req.start_date)

/-- The per-duration-type price branch of `create_booking`
(server.py:710-753), producing the pre-discount subtotal. -/
def priceBranch (l : Listing) (req : BookingReq) (days surge_days : ℕ) (sp : ℚ) :
    Except BErr ℚ :=
  match req.duration_type with
  | .hourly =>
    match truthyQ l.price_per_hour with
    | none => .error .hourlyUnavailable
    | some pph =>
      match req.hours with
      | none => .error .hoursRequired
      | some h =>
        if h < 1 then .error .hoursRequired
        else if h < l.min_rental_hours then .error .belowMinHours
        else
          let base := pph * h
          if is_surge_date l req.start_date then .ok (round2 (base + base * (sp / 100)))
          else .ok (round2 base)
  | .weekly =>
    match truthyQ l.price_per_week with
    | none => .error .weeklyUnavailable
    | some ppw =>
      let weeks : ℕ := max 1 (days / 7)
      let remaining : ℕ := days % 7
      let ppd := pyOrQ l.price_per_day (ppw / 7)
      let base := ppw * weeks + ppd * remaining
      let base2 := if 0 < surge_days then base + (ppd * surge_days) * (sp / 100) else base
      .ok (round2 base2)
  | .daily =>
    match truthyQ l.price_per_day with
    | none => .error .dailyUnavailable
    | some ppd =>
      let days2 := if days < 1 then 1 else days
      if days2 < l.min_rental_days then .error .belowMinDays
      else
        let normal : ℚ := (days2 : ℚ) - (surge_days : ℚ)
        .ok (round2 (ppd * normal + ppd * surge_days * (1 + sp / 100)))

/-- The discount-tier cascade of `create_booking` (server.py:756-766):
quarterly, else monthly, else weekly, else none. -/
def discountFor (l : Listing) (days : ℕ) : ℚ :=
  if 90 ≤ days ∧ 0 < l.discount_quarterly then l.discount_quarterly
  else if 30 ≤ days ∧ 0 < l.discount_monthly then l.discount_monthly
  else if 7 ≤ days ∧ 0 < l.discount_weekly then l.discount_weekly
  else 0

/-- `days = (end_date - start_date).days or 1` (server.py:685): the
whole-day difference, with `0` falling back to `1`. -/
def bookingDays (req : BookingReq) : ℕ :=
  let d := req.end_date - req.start_date
  if d = 0 then 1 else d

/-- The surge-day count `create_booking` computes (server.py:700-706):
the loop runs only when surge is enabled and the duration type is daily
or weekly; otherwise `surge_days` stays `0`. -/
def bookingSurgeDays (l : Listing) (req : BookingReq) : ℕ :=
  if l.surge_enabled ∧ (req.duration_type = .daily ∨ req.duration_type = .weekly)
  then surgeLoopCount l req.start_date req.end_date else 0

/-- `surge_percentage = listing.get("surge_percentage", 20.0) or 20.0`
(server.py:708): a missing, `None` or `0` field falls back to `20`. -/
def effSurgePct (l : Listing) : ℚ := pyOrQ l.surge_percentage 20

/-- The pre-discount subtotal of a booking: the price branch applied to
the day count, surge-day count and surge percentage computed above. -/
def bookingSubtotal (l : Listing) (req : BookingReq) : Except BErr ℚ :=
  priceBranch l req (bookingDays req) (bookingSurgeDays l req) (effSurgePct l)

/-- The discount step (server.py:768-770): when a tier applies, subtract
`total * discount/100` and round; otherwise leave the subtotal alone. -/
def applyDiscount (l : Listing) (days : ℕ) (t : ℚ) : ℚ :=
  let dd := discountFor l days
  if 0 < dd then round2 (t - t * (dd / 100)) else t

/-- `create_booking` (server.py:652-806).  `listings` and `bookings`
stand for the two collections; the result is the inserted booking
document, or the `HTTPException` raised. -/
def createBooking (listings : List (ℕ × Listing)) (bookings : List Booking)
    (renter : ℕ) (req : BookingReq) : Except BErr Booking :=
  match listings.lookup req.listing_id with
  | none => .error .listingNotFound
  | some l =>
    if l.owner_id = renter then .error .cannotBookOwn
    else if req.end_date < req.start_date then .error .invalidDates
    else if bookings.any (fun b => conflictsWith b req) then .error .conflict
    else
      match bookingSubtotal l req with
      | .error e => .error e
      | .ok total1 =>
        let days := bookingDays req
        let dd := discountFor l days
        let total2 := applyDiscount l days total1
        let fee := round2 (total2 * (PLATFORM_FEE_PERCENT / 100))
        .ok { listing_id := req.listing_id
              renter_id := renter
              owner_id := l.owner_id
              start_date := req.start_date
              end_date := req.end_date
              duration_type := req.duration_type
              hours := req.hours
              surge_days := bookingSurgeDays l req
              surge_percentage := if 0 < bookingSurgeDays l req then effSurgePct l else 0
              discount_applied := dd
              total_price := total2
              platform_fee := fee
              status := .pending
              escrow_status := .pending
              receipt_confirmed := false }

/-! ### Specification-side definitions

These restate, in the specification's own words, the quantities the
claims are about; theorems below compare them with the embedded code. -/

/-- The surge predicate as the specification words it: `surge_enabled`
is true AND (the day is Saturday/Sunday and `surge_weekends` is true,
OR the day is listed in `surge_dates`). -/
def surgePredSpec (l : Listing) (d : ℕ) : Prop :=
  l.surge_enabled ∧ ((d % 7 ≥ 5 ∧ l.surge_weekends) ∨ d ∈ l.surge_dates)

instance (l : Listing) : DecidablePred (surgePredSpec l) := fun d => by
  unfold surgePredSpec; infer_instance

/-- The specification's surge-day count: the number of calendar days `d`
in `[s, e)` satisfying the surge predicate. -/
def specSurgeCount (l : Listing) (s e : ℕ) : ℕ :=
  ((Finset.Ico s e).filter (fun d => surgePredSpec l d)).card

instance {ε α : Type} [DecidableEq ε] [DecidableEq α] : DecidableEq (Except ε α) :=
  fun a b =>
  match a, b with
  | .error e1, .error e2 =>
    match decEq e1 e2 with
    | isTrue h => isTrue (h ▸ rfl)
    | isFalse h => isFalse (fun hc => h (by injection hc))
  | .error _, .ok _ => isFalse (fun hc => by injection hc)
  | .ok _, .error _ => isFalse (fun hc => by injection hc)
  | .ok a1, .ok a2 =>
    match decEq a1 a2 with
    | isTrue h => isTrue (h ▸ rfl)
    | isFalse h => isFalse (fun hc => h (by injection hc))

/-! ### Concrete instances used by witnesses and counterexamples -/

/-- The spec's worked daily example: `price_per_day = 100`, surge enabled
on weekends at 20%, no discounts. -/
def exListingDaily : Listing :=
  { owner_id := 1, price_per_day := some 100, surge_enabled := true,
    surge_percentage := some 20, surge_weekends := true }

/-- A Friday→Monday request (day 0 is a Monday, so day 4 is a Friday):
three whole days, of which Saturday and Sunday are surge days. -/
def exReqFriMon : BookingReq := { listing_id := 10, start_date := 4, end_date := 7 }

/-- The spec's worked weekly example: `price_per_week = 500`,
`price_per_day = 100`, no surge. -/
def exListingWeekly : Listing :=
  { owner_id := 1, price_per_week := some 500, price_per_day := some 100 }

/-- A ten-day weekly-duration request starting on a Monday. -/
def exReqTenDays : BookingReq :=
  { listing_id := 10, start_date := 0, end_date := 10, duration_type := .weekly }

/-- A three-day weekly-duration request starting on a Monday. -/
def exReqThreeDaysWeekly : BookingReq :=
  { listing_id := 10, start_date := 0, end_date := 3, duration_type := .weekly }

/-- The specification's per-day rate for weekly bookings:
`price_per_day` when configured, else `price_per_week / 7`. -/
def specPerDayRate (l : Listing) (ppw : ℚ) : ℚ :=
  (l.price_per_day).getD (ppw / 7)

/-- The user fields touched by escrow release and payment crediting. -/
structure User where
  id : ℕ
  total_earnings : ℚ := 0
  pending_payout : ℚ := 0
deriving DecidableEq, Repr

/-- `confirm_receipt` (server.py:854-913): guards in code order (renter,
`status == paid`, `receipt_confirmed` latch); on success flips the
booking to `completed`/`released`/confirmed and credits the owner's
`total_earnings` and `pending_payout` with `total_price − platform_fee`.
The downstream payout transfer does not touch this state and its failure
does not roll the transition back, so it is not modelled. -/
def confirmReceipt (b : Booking) (caller : ℕ) (owner : User) :
    Except BErr (Booking × User) :=
  if b.renter_id ≠ caller then .error .notAuthorized
  else if b.status ≠ .paid then .error .notPaid
  else if b.receipt_confirmed then .error .alreadyConfirmed
  else
    let payout := b.total_price - b.platform_fee
    .ok ({ b with receipt_confirmed := true, escrow_status := .released,
                  status := .completed },
         { owner with total_earnings := owner.total_earnings + payout,
                      pending_payout := owner.pending_payout + payout })

/-- `update_booking_status` (server.py:835-852): owner check, then a
membership check on the requested status string, then an unconditional
write of the new status. -/
def updateBookingStatus (b : Booking) (caller : ℕ) (status : BStatus) :
    Except BErr Booking :=
  if b.owner_id ≠ caller then .error .notAuthorized
  else if ¬ (status = .confirmed ∨ status = .rejected ∨ status = .completed ∨
      status = .cancelled) then .error .invalidStatus
  else .ok { b with status := status }

/-- A payment transaction's `payment_status` field. -/
inductive PayState where
  | pending | paid
deriving DecidableEq, Repr

/-- The payment-transaction fields read by the paid-transition handlers
(server.py:1234-1254): `owner_amount` is set at checkout to
`total_price − platform_fee`. -/
structure Txn where
  booking_id : ℕ
  owner_id : ℕ
  amount : ℚ
  owner_amount : ℚ
  auto_payout : Bool
  payment_status : PayState := .pending
deriving DecidableEq, Repr

/-- The paid-branch of `get_payment_status` (server.py:1288-1308):
when the gateway reports the session paid and the stored transaction is
not yet paid, mark the transaction paid, set the booking's `status` to
`paid`, and (only without auto-payout) credit the owner; otherwise leave
all state untouched. -/
def pollPaymentPaid (gateway_paid : Bool) (t : Txn) (b : Booking) (u : User) :
    Txn × Booking × User :=
  if gateway_paid ∧ t.payment_status ≠ .paid then
    ({ t with payment_status := .paid },
     { b with status := .paid },
     if ¬ t.auto_payout then
       { u with pending_payout := u.pending_payout + t.owner_amount,
                total_earnings := u.total_earnings + t.owner_amount }
     else u)
  else (t, b, u)

/-- The paid-branch of `stripe_webhook` (server.py:1334-1359): same
transition as the poll, but the owner credit is unconditional. -/
def webhookPaymentPaid (gateway_paid : Bool) (t : Txn) (b : Booking) (u : User) :
    Txn × Booking × User :=
  if gateway_paid ∧ t.payment_status ≠ .paid then
    ({ t with payment_status := .paid },
     { b with status := .paid },
     { u with pending_payout := u.pending_payout + t.owner_amount,
              total_earnings := u.total_earnings + t.owner_amount })
  else (t, b, u)

/-- A paid, unconfirmed booking: renter 2, owner 1, `340.00` total,
`17.00` fee, escrow still `pending`. -/
def exBookingPaid : Booking :=
  { listing_id := 10, renter_id := 2, owner_id := 1, start_date := 4, end_date := 7,
    surge_days := 2, surge_percentage := 20, total_price := 340, platform_fee := 17,
    status := .paid, escrow_status := .pending }

/-- An owner account with zero balances. -/
def exOwner : User := { id := 1 }

/-- A pending payment transaction for `exBookingPaid` without a
connected payout account. -/
def exTxn : Txn :=
  { booking_id := 77, owner_id := 1, amount := 340, owner_amount := 323,
    auto_payout := false }

/-- A listing with all three long-term discount tiers configured. -/
def exListingAllDiscounts : Listing :=
  { owner_id := 1, discount_weekly := 30, discount_monthly := 20,
    discount_quarterly := 10 }

/-- A confirmed booking awaiting payment, escrow still `pending`. -/
def exBookingConfirmed : Booking :=
  { listing_id := 10, renter_id := 2, owner_id := 1, start_date := 4, end_date := 7,
    total_price := 340, platform_fee := 17, status := .confirmed,
    escrow_status := .pending }

/-- A request whose end date equals its start date. -/
def exReqSameDay : BookingReq := { listing_id := 10, start_date := 4, end_date := 4 }

/-- A request with its end date strictly before its start date. -/
def exReqReversed : BookingReq := { listing_id := 10, start_date := 7, end_date := 4 }

/-- A surge-enabled listing whose configured `surge_percentage` is `0`. -/
def exListingZeroSurge : Listing :=
  { owner_id := 1, price_per_day := some 100, surge_enabled := true,
    surge_percentage := some 0, surge_weekends := true }

/-- A one-day Saturday booking (day 5 is a Saturday). -/
def exReqSaturday : BookingReq := { listing_id := 10, start_date := 5, end_date := 6 }

/-- A forty-day request, exceeding the default `max_rental_days = 30`. -/
def exReqFortyDays : BookingReq := { listing_id := 10, start_date := 0, end_date := 40 }

/-! ### Theorems -/

/-- When the optional field is not a configured zero, Python's `x or d`
agrees with "the value when configured, else the default". -/
theorem pyOrQ_eq_getD (x : Option ℚ) (d : ℚ) (h : x ≠ some 0) :
    pyOrQ x d = x.getD d := by
  cases x with
  | none => rfl
  | some v =>
    have hv : v ≠ 0 := fun hv0 => h (by rw [hv0])
    show (if v = 0 then d else v) = v
    rw [if_neg hv]

/-- The code's `is_surge_date` decides exactly the specification's surge
predicate. -/
theorem is_surge_date_iff (l : Listing) (d : ℕ) :
    is_surge_date l d = true ↔ surgePredSpec l d := by
  unfold is_surge_date surgePredSpec
  by_cases he : l.surge_enabled <;>
    by_cases hw : l.surge_weekends ∧ d % 7 ≥ 5 <;>
      simp_all [List.contains, List.elem_iff] <;> tauto

/-- The day-by-day counting loop of `create_booking` computes the
specification's surge-day count over `[s, e)`. -/
theorem surgeLoopCount_eq_specSurgeCount (l : Listing) (s e : ℕ) :
    surgeLoopCount l s e = specSurgeCount l s e := by
  rcases le_or_lt e s with h | h
  · unfold surgeLoopCount specSurgeCount
    rw [Nat.sub_eq_zero_of_le h, Finset.Ico_eq_empty (by omega)]
    simp
  · have hs : s ≤ e := le_of_lt h
    clear h
    induction e, hs using Nat.le_induction with
    | base =>
      unfold surgeLoopCount specSurgeCount
      simp
    | succ e he ih =>
      unfold surgeLoopCount specSurgeCount at ih ⊢
      have hrange : e + 1 - s = (e - s) + 1 := by omega
      have hse : s + (e - s) = e := by omega
      rw [hrange, List.range_succ, List.filter_append, List.length_append,
          Nat.Ico_succ_right_eq_insert_Ico he, Finset.filter_insert]
      by_cases hp : surgePredSpec l e
      · have hq : is_surge_date l (s + (e - s)) = true := by
          rw [hse]; exact (is_surge_date_iff l e).mpr hp
        rw [if_pos hp, Finset.card_insert_of_not_mem]
        · simp [List.filter_cons, hq, ih]
        · intro hmem
          exact absurd (Finset.mem_Ico.mp (Finset.mem_filter.mp hmem).1).2 (lt_irrefl e)
      · have hq : is_surge_date l (s + (e - s)) = false := by
          rw [hse]
          exact Bool.eq_false_iff.mpr (fun hc => hp ((is_surge_date_iff l e).mp hc))
        rw [if_neg hp]
        simp [List.filter_cons, hq, ih]

/-- With surge disabled the specification's surge count is zero. -/
theorem specSurgeCount_of_not_enabled (l : Listing) (s e : ℕ)
    (h : l.surge_enabled = false) : specSurgeCount l s e = 0 := by
  unfold specSurgeCount
  rw [Finset.card_eq_zero, Finset.filter_eq_empty_iff]
  intro d _
  unfold surgePredSpec
  simp [h]

/-- For daily and weekly bookings, the `surge_days` value `create_booking`
feeds into the price branches is exactly the specification's count. -/
theorem bookingSurgeDays_eq_spec (l : Listing) (req : BookingReq)
    (h : req.duration_type = .daily ∨ req.duration_type = .weekly) :
    bookingSurgeDays l req = specSurgeCount l req.start_date req.end_date := by
  unfold bookingSurgeDays
  by_cases he : l.surge_enabled
  · rw [if_pos ⟨he, h⟩, surgeLoopCount_eq_specSurgeCount]
  · rw [if_neg (fun hc => he hc.1),
      specSurgeCount_of_not_enabled l _ _ (Bool.not_eq_true _ ▸ he)]

/-- `(end - start).days or 1` is `max 1 (end - start)`. -/
theorem bookingDays_eq_max (req : BookingReq) :
    bookingDays req = max 1 (req.end_date - req.start_date) := by
  unfold bookingDays
  by_cases h : req.end_date - req.start_date = 0 <;> simp [h] <;> omega

/-- `effSurgePct` returns the configured percentage when it is present
and non-zero. -/
theorem effSurgePct_of_configured (l : Listing) (sp : ℚ)
    (hsp : l.surge_percentage = some sp) (hsp0 : sp ≠ 0) :
    effSurgePct l = sp := by
  unfold effSurgePct pyOrQ
  rw [hsp]
  exact if_neg hsp0

/-- `truthyQ` keeps a configured non-zero value. -/
theorem truthyQ_of_ne_zero (x : ℚ) (h : x ≠ 0) : truthyQ (some x) = some x :=
  if_neg h

/-- C1: for a daily booking on a listing with `price_per_day` configured,
with `days = max(1, end − start)` at least `min_rental_days`, the computed
(pre-discount) total price is
`round(price_per_day · normal_days + price_per_day · surge_days · (1 + surge_percentage/100), 2)`,
where `surge_days` counts the calendar days of `[start, end)` satisfying
the surge predicate and `normal_days = days − surge_days`. -/
theorem daily_price_formula (l : Listing) (req : BookingReq) (ppd sp : ℚ)
    (hdt : req.duration_type = .daily)
    (hppd : l.price_per_day = some ppd) (hppd0 : ppd ≠ 0)
    (hsp : l.surge_percentage = some sp) (hsp0 : sp ≠ 0)
    (hmin : l.min_rental_days ≤ max 1 (req.end_date - req.start_date)) :
    bookingSubtotal l req =
      .ok (round2 (ppd * (((max 1 (req.end_date - req.start_date) : ℕ) : ℚ) -
            (specSurgeCount l req.start_date req.end_date : ℚ)) +
          ppd * (specSurgeCount l req.start_date req.end_date : ℚ) * (1 + sp / 100))) := by
  have hsd := bookingSurgeDays_eq_spec l req (Or.inl hdt)
  have hbd := bookingDays_eq_max req
  have ht : truthyQ l.price_per_day = some ppd := by rw [hppd]; exact if_neg hppd0
  have hsp' := effSurgePct_of_configured l sp hsp hsp0
  obtain ⟨lid, s, e, dt, hrs⟩ := req
  simp only at hdt
  subst hdt
  unfold bookingSubtotal priceBranch
  simp only at hsd hbd ⊢
  rw [ht, hsd, hbd, hsp']
  have hclamp : (if max 1 (e - s) < 1 then 1 else max 1 (e - s)) = max 1 (e - s) :=
    if_neg (by omega)
  simp only [hclamp, if_neg (not_lt.mpr hmin)]

/-- The floor of an integer-valued rational is that integer. -/
theorem ratFloor_intCast (z : ℤ) : ratFloor (z : ℚ) = z := by
  unfold ratFloor
  rw [Rat.num_intCast, Rat.den_intCast]
  exact Int.fdiv_one z

/-- Half-even rounding is the identity on integer-valued rationals. -/
theorem rhalfEven_intCast (z : ℤ) : rhalfEven (z : ℚ) = z := by
  simp only [rhalfEven, ratFloor_intCast, sub_self]
  norm_num

/-- `round(·, 2)` is the identity on integer-valued rationals. -/
theorem round2_intCast (z : ℤ) : round2 ((z : ℚ)) = (z : ℚ) := by
  unfold round2
  have h : ((z : ℚ) * 100) = ((z * 100 : ℤ) : ℚ) := by push_cast; ring
  rw [h, rhalfEven_intCast]
  push_cast
  field_simp

/-- `round(·, 2)` fixes any rational that equals an integer. -/
theorem round2_eq_int (q : ℚ) (z : ℤ) (h : q = (z : ℚ)) : round2 q = (z : ℚ) := by
  rw [h, round2_intCast]

/-- Shape of a successful `create_booking` run: when the listing lookup,
ownership, date and conflict checks pass and the price branch returns a
subtotal, the inserted document is this record. -/
theorem createBooking_ok (listings : List (ℕ × Listing)) (bookings : List Booking)
    (renter : ℕ) (req : BookingReq) (l : Listing) (t : ℚ)
    (hl : listings.lookup req.listing_id = some l)
    (hown : ¬ l.owner_id = renter)
    (hdate : ¬ req.end_date < req.start_date)
    (hconf : bookings.any (fun b => conflictsWith b req) = false)
    (hsub : bookingSubtotal l req = .ok t) :
    createBooking listings bookings renter req =
      .ok { listing_id := req.listing_id, renter_id := renter, owner_id := l.owner_id,
            start_date := req.start_date, end_date := req.end_date,
            duration_type := req.duration_type, hours := req.hours,
            surge_days := bookingSurgeDays l req,
            surge_percentage := if 0 < bookingSurgeDays l req then effSurgePct l else 0,
            discount_applied := discountFor l (bookingDays req),
            total_price := applyDiscount l (bookingDays req) t,
            platform_fee :=
              round2 (applyDiscount l (bookingDays req) t * (PLATFORM_FEE_PERCENT / 100)),
            status := .pending, escrow_status := .pending,
            receipt_confirmed := false } := by
  unfold createBooking
  rw [hl]
  simp only [if_neg hown, if_neg hdate, hconf, Bool.false_eq_true, if_false, hsub]

/-- Witness for C1: on the spec's example the daily formula yields
`340.00`, both at the subtotal stage and in the created booking. -/
theorem daily_price_formula_witness :
    bookingSubtotal exListingDaily exReqFriMon = .ok 340 ∧
    (createBooking [(10, exListingDaily)] [] 2 exReqFriMon).map Booking.total_price
      = .ok 340 := by
  have hc : specSurgeCount exListingDaily exReqFriMon.start_date exReqFriMon.end_date = 2 := by
    decide
  have h := daily_price_formula exListingDaily exReqFriMon 100 20 rfl rfl
    (by norm_num) rfl (by norm_num) (by decide)
  rw [hc] at h
  have h340 : round2 (100 * (((max 1 (exReqFriMon.end_date - exReqFriMon.start_date) : ℕ) : ℚ) -
      ((2 : ℕ) : ℚ)) + 100 * ((2 : ℕ) : ℚ) * (1 + 20 / 100)) = ((340 : ℤ) : ℚ) := by
    apply round2_eq_int
    rw [show (max 1 (exReqFriMon.end_date - exReqFriMon.start_date) : ℕ) = 3 from by decide]
    norm_num
  rw [h340] at h
  have hsub : bookingSubtotal exListingDaily exReqFriMon = .ok 340 := by
    rw [h]; norm_num
  refine ⟨hsub, ?_⟩
  rw [createBooking_ok [(10, exListingDaily)] [] 2 exReqFriMon exListingDaily 340
    (by decide) (by decide) (by decide) (by decide) hsub]
  have hda : applyDiscount exListingDaily (bookingDays exReqFriMon) 340 = 340 := by
    unfold applyDiscount
    rw [show discountFor exListingDaily (bookingDays exReqFriMon) = 0 from by decide]
    norm_num
  simp only [Except.map, hda]

/-- C2 (amended): for a weekly booking with `price_per_week` configured,
the pre-discount total is
`round(price_per_week · weeks + rate · remaining + rate · surge_days · surge_percentage/100, 2)`
with `weeks = max(1, days ÷ 7)` — not `days ÷ 7` as the claim stated —
`remaining = days mod 7`, and `rate` the configured `price_per_day`, else
`price_per_week / 7`. -/
theorem weekly_price_formula (l : Listing) (req : BookingReq) (ppw sp : ℚ)
    (hdt : req.duration_type = .weekly)
    (hppw : l.price_per_week = some ppw) (hppw0 : ppw ≠ 0)
    (hpd : l.price_per_day ≠ some 0)
    (hsp : l.surge_percentage = some sp) (hsp0 : sp ≠ 0) :
    bookingSubtotal l req =
      .ok (round2 (ppw * ((max 1 (max 1 (req.end_date - req.start_date) / 7) : ℕ) : ℚ) +
          specPerDayRate l ppw * ((max 1 (req.end_date - req.start_date) % 7 : ℕ) : ℚ) +
          specPerDayRate l ppw * (specSurgeCount l req.start_date req.end_date : ℚ) *
            (sp / 100))) := by
  have hsd := bookingSurgeDays_eq_spec l req (Or.inr hdt)
  have hbd := bookingDays_eq_max req
  have ht : truthyQ l.price_per_week = some ppw := by rw [hppw]; exact if_neg hppw0
  have hsp' := effSurgePct_of_configured l sp hsp hsp0
  have hrate : pyOrQ l.price_per_day (ppw / 7) = specPerDayRate l ppw :=
    pyOrQ_eq_getD _ _ hpd
  obtain ⟨lid, s, e, dt, hrs⟩ := req
  simp only at hdt
  subst hdt
  unfold bookingSubtotal priceBranch
  simp only at hsd hbd ⊢
  rw [ht]
  dsimp only
  rw [hsd, hbd, hsp', hrate]
  by_cases hS : 0 < specSurgeCount l s e
  · rw [if_pos hS]
  · rw [if_neg hS]
    have hS0 : specSurgeCount l s e = 0 := by omega
    rw [hS0]
    congr 1
    push_cast
    ring

/-- The embedded code prices the three-day weekly example at `800.00`
(one full week charged via `weeks = max(1, days ÷ 7)` plus three
remainder days). -/
theorem bookingSubtotal_weekly_three_days :
    bookingSubtotal exListingWeekly exReqThreeDaysWeekly = .ok 800 := by
  unfold bookingSubtotal priceBranch
  rw [show exReqThreeDaysWeekly.duration_type = .weekly from rfl,
    show truthyQ exListingWeekly.price_per_week = some 500 from by decide,
    show bookingDays exReqThreeDaysWeekly = 3 from by decide,
    show bookingSurgeDays exListingWeekly exReqThreeDaysWeekly = 0 from by decide]
  norm_num
  exact round2_eq_int _ 800 (by norm_num [pyOrQ, exListingWeekly])

/-- C2 counterexample: the claim computes `weeks = days ÷ 7`, but the
code uses `weeks = max(1, days ÷ 7)`.  For a three-day weekly booking on
the spec's example listing the code charges `800.00` while the claim's
formula yields `300.00`. -/
theorem weekly_weeks_counterexample :
    (createBooking [(10, exListingWeekly)] [] 2 exReqThreeDaysWeekly).map
      Booking.total_price = .ok 800 ∧
    round2 ((500 : ℚ) * ((3 / 7 : ℕ) : ℚ) + 100 * ((3 % 7 : ℕ) : ℚ) +
      100 * ((specSurgeCount exListingWeekly 0 3 : ℕ) : ℚ) * (20 / 100)) = 300 ∧
    (800 : ℚ) ≠ 300 := by
  refine ⟨?_, ?_, by norm_num⟩
  · rw [createBooking_ok [(10, exListingWeekly)] [] 2 exReqThreeDaysWeekly exListingWeekly
      800 (by decide) (by decide) (by decide) (by decide) bookingSubtotal_weekly_three_days]
    have hda : applyDiscount exListingWeekly (bookingDays exReqThreeDaysWeekly) 800 = 800 := by
      unfold applyDiscount
      rw [show discountFor exListingWeekly (bookingDays exReqThreeDaysWeekly) = 0 from by decide]
      norm_num
    simp only [Except.map, hda]
  · rw [show specSurgeCount exListingWeekly 0 3 = 0 from by decide]
    exact round2_eq_int _ 300 (by norm_num)

/-- Witness for C2 (amended): the spec's ten-day weekly example yields
`800.00 = 500·1 + 100·3`, both by the amended formula and end-to-end. -/
theorem weekly_price_formula_witness :
    bookingSubtotal exListingWeekly exReqTenDays = .ok 800 ∧
    (createBooking [(10, exListingWeekly)] [] 2 exReqTenDays).map Booking.total_price
      = .ok 800 := by
  have h := weekly_price_formula exListingWeekly exReqTenDays 500 20 rfl rfl
    (by norm_num) (by decide) rfl (by norm_num)
  rw [show specSurgeCount exListingWeekly exReqTenDays.start_date exReqTenDays.end_date = 0
      from by decide] at h
  have h800 : round2 ((500 : ℚ) *
      ((max 1 (max 1 (exReqTenDays.end_date - exReqTenDays.start_date) / 7) : ℕ) : ℚ) +
      specPerDayRate exListingWeekly 500 *
        ((max 1 (exReqTenDays.end_date - exReqTenDays.start_date) % 7 : ℕ) : ℚ) +
      specPerDayRate exListingWeekly 500 * ((0 : ℕ) : ℚ) * (20 / 100)) = ((800 : ℤ) : ℚ) := by
    apply round2_eq_int
    rw [show (max 1 (max 1 (exReqTenDays.end_date - exReqTenDays.start_date) / 7) : ℕ) = 1
        from by decide,
      show (max 1 (exReqTenDays.end_date - exReqTenDays.start_date) % 7 : ℕ) = 3 from by decide]
    norm_num [specPerDayRate, exListingWeekly]
  rw [h800] at h
  have hsub : bookingSubtotal exListingWeekly exReqTenDays = .ok 800 := by
    rw [h]; norm_num
  refine ⟨hsub, ?_⟩
  rw [createBooking_ok [(10, exListingWeekly)] [] 2 exReqTenDays exListingWeekly 800
    (by decide) (by decide) (by decide) (by decide) hsub]
  have hda : applyDiscount exListingWeekly (bookingDays exReqTenDays) 800 = 800 := by
    unfold applyDiscount
    rw [show discountFor exListingWeekly (bookingDays exReqTenDays) = 0 from by decide]
    norm_num
  simp only [Except.map, hda]

/-- Inversion of a successful `create_booking` run: the stored
`total_price` is the discounted subtotal and the stored `platform_fee`
is 5% of it, rounded. -/
theorem createBooking_ok_inversion (listings : List (ℕ × Listing)) (bookings : List Booking)
    (renter : ℕ) (req : BookingReq) (b : Booking)
    (h : createBooking listings bookings renter req = .ok b) :
    ∃ l t, listings.lookup req.listing_id = some l ∧
      bookingSubtotal l req = .ok t ∧
      b.total_price = applyDiscount l (bookingDays req) t ∧
      b.platform_fee =
        round2 (applyDiscount l (bookingDays req) t * (PLATFORM_FEE_PERCENT / 100)) ∧
      b.surge_days = bookingSurgeDays l req ∧
      b.surge_percentage = (if 0 < bookingSurgeDays l req then effSurgePct l else 0) := by
  unfold createBooking at h
  cases hl : listings.lookup req.listing_id with
  | none =>
    rw [hl] at h
    exact absurd h (fun hc => by injection hc)
  | some l =>
    rw [hl] at h
    dsimp only at h
    by_cases h1 : l.owner_id = renter
    · rw [if_pos h1] at h
      exact absurd h (fun hc => by injection hc)
    · rw [if_neg h1] at h
      by_cases h2 : req.end_date < req.start_date
      · rw [if_pos h2] at h
        exact absurd h (fun hc => by injection hc)
      · rw [if_neg h2] at h
        by_cases h3 : (bookings.any fun b => conflictsWith b req) = true
        · rw [if_pos h3] at h
          exact absurd h (fun hc => by injection hc)
        · rw [if_neg h3] at h
          cases hs : bookingSubtotal l req with
          | error e =>
            rw [hs] at h
            exact absurd h (fun hc => by injection hc)
          | ok t =>
            rw [hs] at h
            dsimp only at h
            injection h with hb
            subst hb
            exact ⟨l, t, rfl, hs, rfl, rfl, rfl, rfl⟩

/-- Tier selection: the quarterly tier wins whenever its guard holds. -/
theorem discountFor_quarterly (l : Listing) (days : ℕ)
    (h90 : 90 ≤ days) (hq : 0 < l.discount_quarterly) :
    discountFor l days = l.discount_quarterly := by
  have hA : 90 ≤ days ∧ 0 < l.discount_quarterly := ⟨h90, hq⟩
  unfold discountFor
  rw [if_pos hA]

/-- Tier selection: the monthly tier applies only when the quarterly
guard fails. -/
theorem discountFor_monthly (l : Listing) (days : ℕ)
    (h30 : 30 ≤ days) (hm : 0 < l.discount_monthly)
    (hnq : ¬ (90 ≤ days ∧ 0 < l.discount_quarterly)) :
    discountFor l days = l.discount_monthly := by
  have hB : 30 ≤ days ∧ 0 < l.discount_monthly := ⟨h30, hm⟩
  unfold discountFor
  rw [if_neg hnq, if_pos hB]

/-- Tier selection: the weekly tier applies only when the quarterly and
monthly guards fail. -/
theorem discountFor_weekly (l : Listing) (days : ℕ)
    (h7 : 7 ≤ days) (hw : 0 < l.discount_weekly)
    (hnq : ¬ (90 ≤ days ∧ 0 < l.discount_quarterly))
    (hnm : ¬ (30 ≤ days ∧ 0 < l.discount_monthly)) :
    discountFor l days = l.discount_weekly := by
  have hC : 7 ≤ days ∧ 0 < l.discount_weekly := ⟨h7, hw⟩
  unfold discountFor
  rw [if_neg hnq, if_neg hnm, if_pos hC]

/-- Tier selection: no tier applies when every guard fails. -/
theorem discountFor_none (l : Listing) (days : ℕ)
    (hnq : ¬ (90 ≤ days ∧ 0 < l.discount_quarterly))
    (hnm : ¬ (30 ≤ days ∧ 0 < l.discount_monthly))
    (hnw : ¬ (7 ≤ days ∧ 0 < l.discount_weekly)) :
    discountFor l days = 0 := by
  unfold discountFor
  rw [if_neg hnq, if_neg hnm, if_neg hnw]

/-- A positive selected discount reduces the subtotal by exactly that
percentage. -/
theorem applyDiscount_eq_pct (l : Listing) (days : ℕ) (t d : ℚ)
    (hd : discountFor l days = d) (hpos : 0 < d) :
    applyDiscount l days t = round2 (t * ((100 - d) / 100)) := by
  unfold applyDiscount
  rw [hd, if_pos hpos]
  congr 1
  ring

/-- With no selected discount the subtotal passes through unchanged. -/
theorem applyDiscount_id (l : Listing) (days : ℕ) (t : ℚ)
    (hd : discountFor l days = 0) : applyDiscount l days t = t := by
  unfold applyDiscount
  rw [hd, if_neg (lt_irrefl 0)]

/-- C3: exactly one discount tier is selected, highest threshold first;
a selected tier is a straight percentage reduction of the surge-inclusive
subtotal; and every created booking's `platform_fee` is
`round(total_price × 0.05, 2)` of the post-discount total. -/
theorem discount_tier_and_platform_fee :
    (∀ (l : Listing) (days : ℕ) (t : ℚ), 90 ≤ days → 0 < l.discount_quarterly →
      applyDiscount l days t = round2 (t * ((100 - l.discount_quarterly) / 100))) ∧
    (∀ (l : Listing) (days : ℕ) (t : ℚ), 30 ≤ days → 0 < l.discount_monthly →
      ¬ (90 ≤ days ∧ 0 < l.discount_quarterly) →
      applyDiscount l days t = round2 (t * ((100 - l.discount_monthly) / 100))) ∧
    (∀ (l : Listing) (days : ℕ) (t : ℚ), 7 ≤ days → 0 < l.discount_weekly →
      ¬ (90 ≤ days ∧ 0 < l.discount_quarterly) → ¬ (30 ≤ days ∧ 0 < l.discount_monthly) →
      applyDiscount l days t = round2 (t * ((100 - l.discount_weekly) / 100))) ∧
    (∀ (l : Listing) (days : ℕ) (t : ℚ),
      ¬ (90 ≤ days ∧ 0 < l.discount_quarterly) → ¬ (30 ≤ days ∧ 0 < l.discount_monthly) →
      ¬ (7 ≤ days ∧ 0 < l.discount_weekly) → applyDiscount l days t = t) ∧
    (∀ (listings : List (ℕ × Listing)) (bookings : List Booking) (renter : ℕ)
      (req : BookingReq) (b : Booking),
      createBooking listings bookings renter req = .ok b →
      b.platform_fee = round2 (b.total_price * (5 / 100))) := by
  refine ⟨?_, ?_, ?_, ?_, ?_⟩
  · intro l days t h90 hq
    exact applyDiscount_eq_pct l days t _ (discountFor_quarterly l days h90 hq) hq
  · intro l days t h30 hm hnq
    exact applyDiscount_eq_pct l days t _ (discountFor_monthly l days h30 hm hnq) hm
  · intro l days t h7 hw hnq hnm
    exact applyDiscount_eq_pct l days t _ (discountFor_weekly l days h7 hw hnq hnm) hw
  · intro l days t hnq hnm hnw
    exact applyDiscount_id l days t (discountFor_none l days hnq hnm hnw)
  · intro listings bookings renter req b h
    obtain ⟨l, t, -, -, htp, hpf, -, -⟩ := createBooking_ok_inversion _ _ _ _ _ h
    rw [hpf, htp]
    rfl

/-- Witness for C3: each tier at a concrete day count on a listing with
all three discounts set (no stacking), and the 5% fee on a concrete
created booking. -/
theorem discount_tier_and_platform_fee_witness :
    applyDiscount exListingAllDiscounts 100 200 = 180 ∧
    applyDiscount exListingAllDiscounts 40 200 = 160 ∧
    applyDiscount exListingAllDiscounts 10 200 = 140 ∧
    applyDiscount exListingAllDiscounts 3 200 = 200 ∧
    ∃ b, createBooking [(10, exListingWeekly)] [] 2 exReqThreeDaysWeekly = .ok b ∧
      b.platform_fee = round2 (b.total_price * (5 / 100)) := by
  have hcb := createBooking_ok [(10, exListingWeekly)] [] 2 exReqThreeDaysWeekly
    exListingWeekly 800 (by decide) (by decide) (by decide) (by decide)
    bookingSubtotal_weekly_three_days
  refine ⟨?_, ?_, ?_, ?_, _, hcb, ?_⟩
  · rw [discount_tier_and_platform_fee.1 exListingAllDiscounts 100 200 (by norm_num)
      (by norm_num [exListingAllDiscounts])]
    exact round2_eq_int _ 180 (by norm_num [exListingAllDiscounts])
  · rw [discount_tier_and_platform_fee.2.1 exListingAllDiscounts 40 200 (by norm_num)
      (by norm_num [exListingAllDiscounts]) (by norm_num)]
    exact round2_eq_int _ 160 (by norm_num [exListingAllDiscounts])
  · rw [discount_tier_and_platform_fee.2.2.1 exListingAllDiscounts 10 200 (by norm_num)
      (by norm_num [exListingAllDiscounts]) (by norm_num) (by norm_num)]
    exact round2_eq_int _ 140 (by norm_num [exListingAllDiscounts])
  · exact discount_tier_and_platform_fee.2.2.2.1 exListingAllDiscounts 3 200
      (by norm_num) (by norm_num) (by norm_num)
  · exact discount_tier_and_platform_fee.2.2.2.2 _ _ _ _ _ hcb

/-- C4 counterexample: calling receipt confirmation twice, the second
call fails with the "must be paid first" error — the status guard fires
before the `receipt_confirmed` latch, because the first call already
moved the booking to `completed` — not with the already-processed error
the claim names.  The owner is still credited exactly once. -/
theorem confirm_receipt_second_error_counterexample :
    ∃ b1 u1, confirmReceipt exBookingPaid 2 exOwner = .ok (b1, u1) ∧
      confirmReceipt b1 2 u1 = .error .notPaid ∧
      BErr.notPaid ≠ BErr.alreadyConfirmed ∧
      u1.total_earnings = 323 ∧ u1.pending_payout = 323 := by
  refine ⟨{ exBookingPaid with receipt_confirmed := true, escrow_status := .released, status := .completed },
          { exOwner with total_earnings := exOwner.total_earnings + (exBookingPaid.total_price - exBookingPaid.platform_fee), pending_payout := exOwner.pending_payout + (exBookingPaid.total_price - exBookingPaid.platform_fee) },
          ?_, by decide, by decide, ?_, ?_⟩
  · unfold confirmReceipt
    rw [if_neg (by decide), if_neg (by decide), if_neg (by decide)]
  · show exOwner.total_earnings + (exBookingPaid.total_price - exBookingPaid.platform_fee) = 323
    norm_num [exOwner, exBookingPaid]
  · show exOwner.pending_payout + (exBookingPaid.total_price - exBookingPaid.platform_fee) = 323
    norm_num [exOwner, exBookingPaid]

/-- C4 (amended): receipt confirmation is permitted only for the renter,
only in status `paid`, only with the latch unset; on success it releases
escrow, completes the booking, sets the latch, and credits the owner with
exactly `total_price − platform_fee`; an immediate second call fails —
with the not-paid error, since the status is now `completed` — and the
owner balance reflects exactly one credit. -/
theorem confirm_receipt_contract :
    (∀ (b : Booking) (caller : ℕ) (u : User), b.renter_id ≠ caller →
      confirmReceipt b caller u = .error .notAuthorized) ∧
    (∀ (b : Booking) (caller : ℕ) (u : User), b.renter_id = caller → b.status ≠ .paid →
      confirmReceipt b caller u = .error .notPaid) ∧
    (∀ (b : Booking) (caller : ℕ) (u : User), b.renter_id = caller → b.status = .paid →
      b.receipt_confirmed = true → confirmReceipt b caller u = .error .alreadyConfirmed) ∧
    (∀ (b : Booking) (caller : ℕ) (u : User), b.renter_id = caller → b.status = .paid →
      b.receipt_confirmed = false →
      ∃ b1 u1, confirmReceipt b caller u = .ok (b1, u1) ∧
        b1.escrow_status = .released ∧ b1.status = .completed ∧
        b1.receipt_confirmed = true ∧
        u1.total_earnings = u.total_earnings + (b.total_price - b.platform_fee) ∧
        u1.pending_payout = u.pending_payout + (b.total_price - b.platform_fee) ∧
        confirmReceipt b1 caller u1 = .error .notPaid) := by
  refine ⟨?_, ?_, ?_, ?_⟩
  · intro b caller u hr
    unfold confirmReceipt
    rw [if_pos hr]
  · intro b caller u hr hst
    unfold confirmReceipt
    rw [if_neg (fun hne => hne hr), if_pos hst]
  · intro b caller u hr hst hrc
    unfold confirmReceipt
    rw [if_neg (fun hne => hne hr), if_neg (fun hne => hne hst), if_pos hrc]
  · intro b caller u hr hst hrc
    refine ⟨{ b with receipt_confirmed := true, escrow_status := .released, status := .completed },
            { u with total_earnings := u.total_earnings + (b.total_price - b.platform_fee), pending_payout := u.pending_payout + (b.total_price - b.platform_fee) },
            ?_, rfl, rfl, rfl, rfl, rfl, ?_⟩
    · unfold confirmReceipt
      rw [if_neg (fun hne => hne hr), if_neg (fun hne => hne hst),
        if_neg (by rw [hrc]; exact Bool.false_ne_true)]
    · unfold confirmReceipt
      rw [if_neg (fun hne => hne hr), if_pos (by decide : (BStatus.completed ≠ .paid))]

/-- Witness for C4 (amended): the paid example booking goes through the
full success-then-not-paid-failure cycle with a single `323.00` credit. -/
theorem confirm_receipt_contract_witness :
    exBookingPaid.renter_id = 2 ∧ exBookingPaid.status = .paid ∧
    exBookingPaid.receipt_confirmed = false ∧
    ∃ b1 u1, confirmReceipt exBookingPaid 2 exOwner = .ok (b1, u1) ∧
      b1.escrow_status = .released ∧ b1.status = .completed ∧
      b1.receipt_confirmed = true ∧
      u1.total_earnings =
        exOwner.total_earnings + (exBookingPaid.total_price - exBookingPaid.platform_fee) ∧
      u1.pending_payout =
        exOwner.pending_payout + (exBookingPaid.total_price - exBookingPaid.platform_fee) ∧
      confirmReceipt b1 2 u1 = .error .notPaid :=
  ⟨rfl, rfl, rfl,
    confirm_receipt_contract.2.2.2 exBookingPaid 2 exOwner rfl rfl rfl⟩

/-- C8 counterexample: an owner status update on a `paid` booking to
`cancelled` succeeds and changes the status, where the claim requires it
to fail and leave the status unchanged. -/
theorem paid_to_cancelled_allowed :
    updateBookingStatus exBookingPaid 1 .cancelled =
      .ok { exBookingPaid with status := .cancelled } ∧
    exBookingPaid.status = .paid ∧
    ({ exBookingPaid with status := .cancelled } : Booking).status ≠ exBookingPaid.status := by
  refine ⟨?_, rfl, by decide⟩
  unfold updateBookingStatus
  rw [if_neg (by decide), if_neg (by decide)]

/-- C8 (amended): the owner status-update endpoint enforces no state
machine.  For every booking, whatever its current status, an owner
request for any of the four accepted target statuses (`confirmed`,
`rejected`, `completed`, `cancelled`) succeeds and overwrites the
status; only the owner check and the membership check are applied. -/
theorem owner_status_update_unrestricted (b : Booking) (caller : ℕ) (s : BStatus)
    (hown : b.owner_id = caller)
    (hs : s = .confirmed ∨ s = .rejected ∨ s = .completed ∨ s = .cancelled) :
    updateBookingStatus b caller s = .ok { b with status := s } := by
  unfold updateBookingStatus
  rw [if_neg (fun hne => hne hown), if_neg (not_not_intro hs)]

/-- Witness for C8 (amended): a `disputed` booking moved to `confirmed`
by its owner. -/
theorem owner_status_update_unrestricted_witness :
    updateBookingStatus { exBookingPaid with status := .disputed } 1 .confirmed =
      .ok { exBookingPaid with status := .confirmed } :=
  owner_status_update_unrestricted { exBookingPaid with status := .disputed } 1 .confirmed
    rfl (Or.inl rfl)

/-- C5 counterexample: the payment-paid transition sets the booking's
status to `paid` but does not set `escrow_status` to `held` — it stays
`pending` exactly as at creation. -/
theorem payment_paid_escrow_counterexample :
    (pollPaymentPaid true exTxn exBookingConfirmed exOwner).2.1.status = .paid ∧
    (pollPaymentPaid true exTxn exBookingConfirmed exOwner).2.1.escrow_status = .pending ∧
    (webhookPaymentPaid true exTxn exBookingConfirmed exOwner).2.1.escrow_status = .pending ∧
    EStatus.pending ≠ EStatus.held := by
  decide

/-- C5 (amended): when the gateway reports a session paid and the stored
transaction is not yet `paid`, both the status poll and the webhook set
the booking's `status` to `paid` but leave `escrow_status` unchanged
(never setting it to `held`); and both are idempotent — an immediate
second invocation is the identity, so the owner credit happens at most
once, guarded by the transaction's `payment_status` check. -/
theorem payment_paid_transition :
    (∀ (t : Txn) (b : Booking) (u : User), t.payment_status ≠ .paid →
      ∃ t1 b1 u1, pollPaymentPaid true t b u = (t1, b1, u1) ∧
        b1.status = .paid ∧ b1.escrow_status = b.escrow_status ∧
        pollPaymentPaid true t1 b1 u1 = (t1, b1, u1)) ∧
    (∀ (t : Txn) (b : Booking) (u : User), t.payment_status ≠ .paid →
      ∃ t1 b1 u1, webhookPaymentPaid true t b u = (t1, b1, u1) ∧
        b1.status = .paid ∧ b1.escrow_status = b.escrow_status ∧
        webhookPaymentPaid true t1 b1 u1 = (t1, b1, u1)) := by
  constructor
  · intro t b u h
    refine ⟨{ t with payment_status := .paid }, { b with status := .paid },
      (if ¬ t.auto_payout then { u with pending_payout := u.pending_payout + t.owner_amount, total_earnings := u.total_earnings + t.owner_amount } else u),
      ?_, rfl, rfl, ?_⟩
    · unfold pollPaymentPaid
      exact if_pos ⟨rfl, h⟩
    · unfold pollPaymentPaid
      exact if_neg (fun hc => hc.2 rfl)
  · intro t b u h
    refine ⟨{ t with payment_status := .paid }, { b with status := .paid },
      { u with pending_payout := u.pending_payout + t.owner_amount, total_earnings := u.total_earnings + t.owner_amount },
      ?_, rfl, rfl, ?_⟩
    · unfold webhookPaymentPaid
      exact if_pos ⟨rfl, h⟩
    · unfold webhookPaymentPaid
      exact if_neg (fun hc => hc.2 rfl)

/-- Witness for C5 (amended): the pending example transaction drives the
confirmed example booking to `paid` with escrow left `pending`, and a
second poll is a no-op. -/
theorem payment_paid_transition_witness :
    exTxn.payment_status ≠ .paid ∧
    ∃ t1 b1 u1, pollPaymentPaid true exTxn exBookingConfirmed exOwner = (t1, b1, u1) ∧
      b1.status = .paid ∧ b1.escrow_status = exBookingConfirmed.escrow_status ∧
      pollPaymentPaid true t1 b1 u1 = (t1, b1, u1) :=
  ⟨by decide, payment_paid_transition.1 exTxn exBookingConfirmed exOwner (by decide)⟩

/-- The Mongo conflict clause holds exactly when the existing booking is
for the same listing, in an active status, and overlaps inclusively. -/
theorem conflictsWith_iff (b : Booking) (req : BookingReq) :
    conflictsWith b req = true ↔
      (b.listing_id = req.listing_id ∧
        (b.status = .pending ∨ b.status = .confirmed ∨ b.status = .paid) ∧
        b.start_date ≤ req.end_date ∧ req.start_date ≤ b.end_date) := by
  unfold conflictsWith activeStatus
  simp only [Bool.and_eq_true, Bool.or_eq_true, beq_iff_eq, decide_eq_true_eq, ge_iff_le,
    and_assoc, or_assoc]

/-- The price branches can fail only with their own validation errors:
never with the conflict or date errors. -/
theorem bookingSubtotal_error_cases (l : Listing) (req : BookingReq) (e : BErr)
    (h : bookingSubtotal l req = .error e) :
    e = .hourlyUnavailable ∨ e = .hoursRequired ∨ e = .belowMinHours ∨
    e = .weeklyUnavailable ∨ e = .dailyUnavailable ∨ e = .belowMinDays := by
  obtain ⟨lid, s, e0, dt, hrs⟩ := req
  unfold bookingSubtotal priceBranch at h
  cases dt <;> dsimp only at h
  · -- hourly
    cases hph : truthyQ l.price_per_hour with
    | none =>
      rw [hph] at h
      dsimp only at h
      injection h with he
      exact Or.inl he.symm
    | some pph =>
      rw [hph] at h
      dsimp only at h
      cases hrs with
      | none =>
        dsimp only at h
        injection h with he
        exact Or.inr (Or.inl he.symm)
      | some hcount =>
        dsimp only at h
        split at h
        · injection h with he
          exact Or.inr (Or.inl he.symm)
        · split at h
          · injection h with he
            exact Or.inr (Or.inr (Or.inl he.symm))
          · split at h <;> exact absurd h (fun hc => by injection hc)
  · -- daily
    cases hpd : truthyQ l.price_per_day with
    | none =>
      rw [hpd] at h
      dsimp only at h
      injection h with he
      exact Or.inr (Or.inr (Or.inr (Or.inr (Or.inl he.symm))))
    | some ppd =>
      rw [hpd] at h
      dsimp only at h
      split at h <;> split at h
      all_goals first
        | (injection h with he
           exact Or.inr (Or.inr (Or.inr (Or.inr (Or.inr he.symm)))))
        | exact absurd h (fun hc => by injection hc)
  · -- weekly
    cases hpw : truthyQ l.price_per_week with
    | none =>
      rw [hpw] at h
      dsimp only at h
      injection h with he
      exact Or.inr (Or.inr (Or.inr (Or.inl he.symm)))
    | some ppw =>
      rw [hpw] at h
      dsimp only at h
      exact absurd h (fun hc => by injection hc)

/-- C6: booking creation fails with the conflict error precisely when
some existing booking on the same listing with status in
{pending, confirmed, paid} overlaps the candidate range inclusively
(`existing.start ≤ cand.end` and `existing.end ≥ cand.start`); bookings
in any other status never block, and on that failure no document is
produced. -/
theorem booking_conflict_iff (listings : List (ℕ × Listing)) (bookings : List Booking)
    (renter : ℕ) (req : BookingReq) (l : Listing)
    (hl : listings.lookup req.listing_id = some l)
    (hown : l.owner_id ≠ renter)
    (hdate : ¬ req.end_date < req.start_date) :
    createBooking listings bookings renter req = .error .conflict ↔
      ∃ b ∈ bookings, b.listing_id = req.listing_id ∧
        (b.status = .pending ∨ b.status = .confirmed ∨ b.status = .paid) ∧
        b.start_date ≤ req.end_date ∧ req.start_date ≤ b.end_date := by
  constructor
  · intro h
    unfold createBooking at h
    rw [hl] at h
    dsimp only at h
    rw [if_neg hown, if_neg hdate] at h
    by_cases hc : (bookings.any fun b => conflictsWith b req) = true
    · rw [List.any_eq_true] at hc
      obtain ⟨b, hb, hcw⟩ := hc
      exact ⟨b, hb, (conflictsWith_iff b req).mp hcw⟩
    · rw [if_neg hc] at h
      cases hs : bookingSubtotal l req with
      | error e =>
        rw [hs] at h
        dsimp only at h
        injection h with he
        have h6 := bookingSubtotal_error_cases l req e hs
        rw [he] at h6
        rcases h6 with h' | h' | h' | h' | h' | h' <;> exact absurd h' (by decide)
      | ok t =>
        rw [hs] at h
        dsimp only at h
        exact absurd h (fun hc => by injection hc)
  · rintro ⟨b, hb, hconj⟩
    unfold createBooking
    rw [hl]
    dsimp only
    rw [if_neg hown, if_neg hdate,
      if_pos (List.any_eq_true.mpr ⟨b, hb, (conflictsWith_iff b req).mpr hconj⟩)]

/-- Witness for C6: a paid existing booking on the same listing and
overlapping dates makes creation fail with the conflict error. -/
theorem booking_conflict_iff_witness :
    createBooking [(10, exListingDaily)] [exBookingPaid] 2 exReqFriMon = .error .conflict :=
  (booking_conflict_iff [(10, exListingDaily)] [exBookingPaid] 2 exReqFriMon exListingDaily
    (by decide) (by decide) (by decide)).mpr
    ⟨exBookingPaid, by decide, by decide⟩

/-- The embedded code prices a same-day daily booking as one day:
`100.00` on the example listing (day 4 is a Friday, no surge). -/
theorem bookingSubtotal_same_day :
    bookingSubtotal exListingDaily exReqSameDay = .ok 100 := by
  unfold bookingSubtotal priceBranch
  rw [show exReqSameDay.duration_type = .daily from rfl,
    show truthyQ exListingDaily.price_per_day = some 100 from by decide,
    show bookingDays exReqSameDay = 1 from by decide,
    show bookingSurgeDays exListingDaily exReqSameDay = 0 from by decide,
    show effSurgePct exListingDaily = 20 from by decide]
  norm_num [exListingDaily]
  exact round2_eq_int _ 100 (by norm_num)

/-- C7 counterexample: a request with `end_date = start_date` is not
rejected — booking creation succeeds and charges one day. -/
theorem same_day_booking_accepted :
    exReqSameDay.end_date = exReqSameDay.start_date ∧
    ∃ b, createBooking [(10, exListingDaily)] [] 2 exReqSameDay = .ok b ∧
      b.total_price = 100 := by
  have hcb := createBooking_ok [(10, exListingDaily)] [] 2 exReqSameDay exListingDaily 100
    (by decide) (by decide) (by decide) (by decide) bookingSubtotal_same_day
  refine ⟨rfl, _, hcb, ?_⟩
  show applyDiscount exListingDaily (bookingDays exReqSameDay) 100 = 100
  exact applyDiscount_id _ _ _ (by decide)

/-- C7 (amended): only `end_date < start_date` is rejected as invalid
input, and that rejection happens before the conflict check and price
computation (the error is `invalidDates` for every bookings collection
and pricing configuration); `end_date = start_date` is accepted and
treated as a one-day booking, never producing the invalid-dates error. -/
theorem date_validation_contract
    (listings : List (ℕ × Listing)) (bookings : List Booking) (renter : ℕ)
    (req : BookingReq) (l : Listing)
    (hl : listings.lookup req.listing_id = some l) (hown : l.owner_id ≠ renter) :
    (req.end_date < req.start_date →
      createBooking listings bookings renter req = .error .invalidDates) ∧
    (req.end_date = req.start_date →
      createBooking listings bookings renter req ≠ .error .invalidDates) := by
  constructor
  · intro hlt
    unfold createBooking
    rw [hl]
    dsimp only
    rw [if_neg hown, if_pos hlt]
  · intro heq
    unfold createBooking
    rw [hl]
    dsimp only
    rw [if_neg hown, if_neg (by omega : ¬ req.end_date < req.start_date)]
    by_cases hc : (bookings.any fun b => conflictsWith b req) = true
    · rw [if_pos hc]
      exact fun hcon => by injection hcon with he; exact absurd he (by decide)
    · rw [if_neg hc]
      cases hs : bookingSubtotal l req with
      | error e =>
        dsimp only
        intro hcon
        injection hcon with he
        have h6 := bookingSubtotal_error_cases l req e hs
        rw [he] at h6
        rcases h6 with h' | h' | h' | h' | h' | h' <;> exact absurd h' (by decide)
      | ok t =>
        dsimp only
        exact fun hcon => by injection hcon

/-- Witness for C7 (amended): reversed dates are rejected with the
invalid-dates error; equal dates are not. -/
theorem date_validation_contract_witness :
    createBooking [(10, exListingDaily)] [] 2 exReqReversed = .error .invalidDates ∧
    createBooking [(10, exListingDaily)] [] 2 exReqSameDay ≠ .error .invalidDates :=
  ⟨(date_validation_contract [(10, exListingDaily)] [] 2 exReqReversed exListingDaily
      (by decide) (by decide)).1 (by decide),
   (date_validation_contract [(10, exListingDaily)] [] 2 exReqSameDay exListingDaily
      (by decide) (by decide)).2 rfl⟩

/-- A surge Saturday on the zero-percentage listing is billed with the
20% default: one surge day at `100.00` comes to `120.00`. -/
theorem bookingSubtotal_zero_surge_saturday :
    bookingSubtotal exListingZeroSurge exReqSaturday = .ok 120 := by
  unfold bookingSubtotal priceBranch
  rw [show exReqSaturday.duration_type = .daily from rfl,
    show truthyQ exListingZeroSurge.price_per_day = some 100 from by decide,
    show bookingDays exReqSaturday = 1 from by decide,
    show bookingSurgeDays exListingZeroSurge exReqSaturday = 1 from by decide,
    show effSurgePct exListingZeroSurge = 20 from by decide]
  norm_num [exListingZeroSurge]
  exact round2_eq_int _ 120 (by norm_num)

/-- C9: a listing whose `surge_percentage` is a configured `0` or absent
gets the default `20.0` — `x or 20.0` treats `0` as missing — and every
created booking with surge days records that effective percentage. -/
theorem zero_surge_percentage_defaults :
    (∀ l : Listing, l.surge_percentage = some 0 ∨ l.surge_percentage = none →
      effSurgePct l = 20) ∧
    (∀ (listings : List (ℕ × Listing)) (bookings : List Booking) (renter : ℕ)
      (req : BookingReq) (l : Listing) (b : Booking),
      listings.lookup req.listing_id = some l →
      createBooking listings bookings renter req = .ok b →
      0 < b.surge_days → b.surge_percentage = effSurgePct l) := by
  constructor
  · rintro l (h | h) <;> simp [effSurgePct, pyOrQ, h]
  · intro listings bookings renter req l b hl h hpos
    obtain ⟨l', t, hl', -, -, -, hsd, hsp⟩ := createBooking_ok_inversion _ _ _ _ _ h
    rw [hl] at hl'
    injection hl' with hll
    subst hll
    rw [hsp, if_pos (hsd ▸ hpos)]

/-- Witness for C9: the zero-percentage listing yields an effective 20%
surge; a one-day Saturday booking is charged `120.00` and records
`surge_percentage = 20`. -/
theorem zero_surge_percentage_defaults_witness :
    effSurgePct exListingZeroSurge = 20 ∧
    ∃ b, createBooking [(10, exListingZeroSurge)] [] 2 exReqSaturday = .ok b ∧
      b.surge_percentage = 20 ∧ b.total_price = 120 := by
  have h1 := zero_surge_percentage_defaults.1 exListingZeroSurge (Or.inl rfl)
  have hcb := createBooking_ok [(10, exListingZeroSurge)] [] 2 exReqSaturday
    exListingZeroSurge 120 (by decide) (by decide) (by decide) (by decide)
    bookingSubtotal_zero_surge_saturday
  refine ⟨h1, _, hcb, ?_, ?_⟩
  · have h2 := zero_surge_percentage_defaults.2 [(10, exListingZeroSurge)] [] 2
      exReqSaturday exListingZeroSurge _ (by decide) hcb (by decide)
    rw [h2, h1]
  · show applyDiscount exListingZeroSurge (bookingDays exReqSaturday) 120 = 120
    exact applyDiscount_id _ _ _ (by decide)

/-- A daily booking that passes the configured checks always has a
subtotal: the daily branch validates only the price field and the
minimum-days floor. -/
theorem daily_subtotal_ok (l : Listing) (req : BookingReq) (ppd : ℚ)
    (hdt : req.duration_type = .daily)
    (hppd : truthyQ l.price_per_day = some ppd)
    (hmin : l.min_rental_days ≤ bookingDays req) :
    ∃ t, bookingSubtotal l req = .ok t := by
  have h1 : 1 ≤ bookingDays req := by
    rw [bookingDays_eq_max]
    exact le_max_left _ _
  obtain ⟨lid, s, e, dt, hrs⟩ := req
  simp only at hdt hppd hmin h1
  subst hdt
  unfold bookingSubtotal priceBranch
  dsimp only
  rw [hppd]
  dsimp only
  rw [if_neg (by omega : ¬ bookingDays ⟨lid, s, e, .daily, hrs⟩ < 1),
    if_neg (not_lt.mpr hmin)]
  exact ⟨_, rfl⟩

/-- C10: the `max_rental_days` ceiling is never enforced — a daily
booking passing every other validation succeeds even when its day count
exceeds the listing's `max_rental_days`. -/
theorem max_rental_days_not_enforced
    (listings : List (ℕ × Listing)) (bookings : List Booking) (renter : ℕ)
    (req : BookingReq) (l : Listing) (ppd : ℚ)
    (hl : listings.lookup req.listing_id = some l)
    (hown : ¬ l.owner_id = renter)
    (hdate : ¬ req.end_date < req.start_date)
    (hconf : (bookings.any fun b => conflictsWith b req) = false)
    (hdt : req.duration_type = .daily)
    (hppd : truthyQ l.price_per_day = some ppd)
    (hmin : l.min_rental_days ≤ bookingDays req)
    (hmax : l.max_rental_days < bookingDays req) :
    ∃ b, createBooking listings bookings renter req = .ok b := by
  obtain ⟨t, ht⟩ := daily_subtotal_ok l req ppd hdt hppd hmin
  exact ⟨_, createBooking_ok listings bookings renter req l t hl hown hdate hconf ht⟩

/-- Witness for C10: a forty-day booking on a listing whose
`max_rental_days` is the default 30 still succeeds. -/
theorem max_rental_days_not_enforced_witness :
    exListingDaily.max_rental_days < bookingDays exReqFortyDays ∧
    ∃ b, createBooking [(10, exListingDaily)] [] 2 exReqFortyDays = .ok b :=
  ⟨by decide,
   max_rental_days_not_enforced [(10, exListingDaily)] [] 2 exReqFortyDays exListingDaily
     100 (by decide) (by decide) (by decide) (by decide) rfl (by decide) (by decide)
     (by decide)⟩

end Rentall
